import Mathlib

/-!
Shallow embedding of the transaction-proposal endorsement pipeline
(`core/endorser/endorser.go` of the fabric repository) in Lean 4.

Modelling conventions:
* Go byte slices are modelled as opaque `String`s (`Bytes`); the Go
  conversion `string(b)` is the identity in the model.
* Every external collaborator (proposal validation, ledger access,
  chaincode execution engine, ACL evaluator, marshalling helpers,
  private-data distribution, decorators) is a field of an `Env`
  record of oracle functions; fallible Go calls return
  `Except String`.
* Machine integers (`int32` statuses) are modelled as `Int`; no
  overflow is relevant in the endorser's status comparisons.
* In-place pointer mutation (`ccid.Version = ...` inside
  `endorseProposal`) is modelled by returning the final value of the
  mutated record alongside the ordinary result.
* A Go `panic` reachable in this code (nil dereference of the
  invocation spec, the "No ESCC specified" panic) is modelled as an
  error result whose message starts with "panic:"; for the properties
  proved here only its abortive propagation matters, and Go's `defer`
  releases resources on panic exactly as on an error return.
* Each function additionally returns a `List Event` trace of the
  observable effects it performed, in order: simulator/history-query
  acquisition and release, the duplicate-transaction lookup, the ACL
  check, chaincode executions, private-data distribution, and the
  computation of the public simulation bytes.  The trace is pure
  instrumentation and does not influence control flow.
-/

namespace Fabric

/-- Go `[]byte`, modelled opaquely. -/
abbrev Bytes := String

/-- `pb.ChaincodeID`. -/
structure ChaincodeID where
  Name : String
  Path : String
  Version : String
deriving DecidableEq, Repr

/-- `pb.ChaincodeInput`: ordered argument list plus decorations map. -/
structure ChaincodeInput where
  Args : List Bytes
  Decorations : List (String × Bytes)
deriving DecidableEq, Repr

/-- `pb.ChaincodeSpec_Type`. -/
inductive ChaincodeType where
  | UNDEFINED
  | GOLANG
  | NODE
  | CAR
  | JAVA
deriving DecidableEq, Repr

/-- `pb.ChaincodeSpec` (the `Type` field is renamed `ccType`, `Type`
being a Lean keyword); the `Input` pointer may be nil. -/
structure ChaincodeSpec where
  ccType : ChaincodeType
  ChaincodeId : ChaincodeID
  Input : Option ChaincodeInput
deriving DecidableEq, Repr

/-- `pb.ChaincodeInvocationSpec`; the `ChaincodeSpec` pointer may be nil. -/
structure ChaincodeInvocationSpec where
  ChaincodeSpec : Option ChaincodeSpec
deriving DecidableEq, Repr

/-- `pb.ChaincodeDeploymentSpec` (only the fields the endorser reads). -/
structure ChaincodeDeploymentSpec where
  ChaincodeSpec : ChaincodeSpec
deriving DecidableEq, Repr

/-- `pb.Response`: status, message and payload of a chaincode execution. -/
structure Response where
  Status : Int
  Message : String
  Payload : Bytes
deriving DecidableEq, Repr

/-- `pb.ChaincodeEvent`, opaque contents. -/
structure ChaincodeEvent where
  data : Bytes
deriving DecidableEq, Repr

/-- `pb.Endorsement`: the endorsement signature block. -/
structure Endorsement where
  Endorser : Bytes
  Signature : Bytes
deriving DecidableEq, Repr

/-- `pb.ProposalResponse`.  Fields not set by a Go struct literal take
their zero values. -/
structure ProposalResponse where
  Version : Int := 0
  Response : Response
  Payload : Bytes := ""
  Endorsement : Option Endorsement := none
deriving DecidableEq, Repr

/-- `common.ChannelHeader` (the fields the endorser reads). -/
structure ChannelHeader where
  ChannelId : String
  TxId : String
deriving DecidableEq, Repr

/-- `common.SignatureHeader`. -/
structure SignatureHeader where
  Creator : Bytes
  Nonce : Bytes
deriving DecidableEq, Repr

/-- `common.Header`: serialized channel and signature headers. -/
structure Header where
  ChannelHeader : Bytes
  SignatureHeader : Bytes
deriving DecidableEq, Repr

/-- `pb.ChaincodeHeaderExtension`. -/
structure ChaincodeHeaderExtension where
  ChaincodeId : ChaincodeID
  PayloadVisibility : Bytes
deriving DecidableEq, Repr

/-- `pb.Proposal`. -/
structure Proposal where
  Header : Bytes
  Payload : Bytes
  Extension : Bytes
deriving DecidableEq, Repr

/-- `pb.SignedProposal`. -/
structure SignedProposal where
  ProposalBytes : Bytes
  Signature : Bytes
deriving DecidableEq, Repr

/-- `resourcesconfig.ChaincodeDefinition` as the endorser consumes it:
the resolved version (`CCVersion()`) and the designated endorsement
system chaincode (`Endorsement()`). -/
structure ChaincodeDefinition where
  CCVersion : String
  Endorsement : String
deriving DecidableEq, Repr

/-- `ledger.TxSimulationResults`; the private subset is an opaque
read/write set, `nil` when no private data was produced. -/
structure TxSimulationResults where
  PvtSimulationResults : Option Bytes
deriving DecidableEq, Repr

/-- `ccprovider.CCContext` as built by `NewCCContext`, plus the
`ProposalDecorations` field set in `callChaincode`. -/
structure CCContext where
  ChainID : String
  Name : String
  Version : String
  TxID : String
  Syscc : Bool
  SignedProp : SignedProposal
  PropMsg : Proposal
  ProposalDecorations : List (String × Bytes) := []
deriving DecidableEq, Repr

/-- The per-channel ledger handle returned by `peer.GetLedger`:
`GetTransactionByID` succeeding means the transaction exists
(a duplicate); a fresh transaction simulator is an opaque handle
(`Nat`). -/
structure Ledger where
  GetTransactionByID : String → Except String Unit
  NewTxSimulator : String → Except String Nat
  NewHistoryQueryExecutor : Except String Unit

/-- The collaborators of the endorser, as oracle functions. -/
structure Env where
  IsSysCC : String → Bool
  IsSysCCAndNotInvokableExternal : String → Bool
  SysCCVersion : String
  javaEnabled : Bool
  validateProposalMessage :
    SignedProposal → Except String (Proposal × Header × ChaincodeHeaderExtension)
  unmarshalChannelHeader : Bytes → Except String ChannelHeader
  getSignatureHeader : Bytes → Except String SignatureHeader
  checkACL : String → SignedProposal → Except String Unit
  getLedger : String → Option Ledger
  getChaincodeInvocationSpec : Proposal → Except String ChaincodeInvocationSpec
  getCCPackageDepSpec : Bytes → Except String ChaincodeDeploymentSpec
  getChaincodeDefinition :
    String → String → SignedProposal → Proposal → String → Option Nat →
      Except String ChaincodeDefinition
  checkInstantiationPolicy :
    String → String → ChaincodeDefinition → Except String Unit
  executeChaincode :
    Option Nat → CCContext → List Bytes →
      Except String (Response × Option ChaincodeEvent)
  execute : Option Nat → CCContext → ChaincodeDeploymentSpec → Except String Unit
  getChaincodeDeploymentSpec : Bytes → Except String ChaincodeDeploymentSpec
  decorate : Proposal → ChaincodeInput → ChaincodeInput
  getTxSimulationResults : Nat → Except String TxSimulationResults
  getPubSimulationBytes : TxSimulationResults → Except String Bytes
  distributePrivateData : String → String → Bytes → Except String Unit
  getBytesChaincodeEvent : ChaincodeEvent → Except String Bytes
  getBytesResponse : Response → Except String Bytes
  marshalChaincodeID : ChaincodeID → Except String Bytes
  getProposalResponse : Bytes → Except String ProposalResponse
  createProposalResponseFailure :
    Bytes → Bytes → Response → Bytes → Bytes → ChaincodeID → Bytes →
      Except String ProposalResponse

/-- Observable effects of one request, recorded in order. -/
inductive Event where
  | dupCheck (txid : String)
  | aclCheck
  | acquireSim (id : Nat)
  | releaseSim (id : Nat)
  | acquireHQE
  | executeCC (name : String)
  | executeDeploy (name : String)
  | distribute
  | getPubBytes
  | endorseEntry
deriving DecidableEq, Repr

/-- True for chaincode-execution events (`ExecuteChaincode` and the
lifecycle second execution `Execute`). -/
def Event.isExec : Event → Bool
  | .executeCC _ => true
  | .executeDeploy _ => true
  | _ => false

/-- True for the per-channel admission / simulator / endorsement
events that must not occur for a chainless proposal. -/
def Event.isChainedOnly : Event → Bool
  | .dupCheck _ => true
  | .aclCheck => true
  | .acquireSim _ => true
  | .releaseSim _ => true
  | .acquireHQE => true
  | .endorseEntry => true
  | _ => false

/-- `shim.ERRORTHRESHOLD`: statuses `>= 400` are error-class for
chaincode responses. -/
def ERRORTHRESHOLD : Int := 400

/-- `shim.ERROR`: statuses `>= 500` are unambiguous errors. -/
def ERROR : Int := 500

/-- The Go error returned by `ProcessProposal`: either an ordinary
error (message) or the typed `chaincodeError`. -/
inductive GoError where
  | err (msg : String)
  | chaincodeError (status : Int) (msg : String)
deriving DecidableEq, Repr

/-- `&pb.ProposalResponse{Response: &pb.Response{Status: 500, Message: msg}}`. -/
def respond500 (msg : String) : ProposalResponse :=
  { Response := { Status := 500, Message := msg, Payload := "" } }

/-- Number of simulator acquisitions recorded in a trace. -/
def acquireCount (tr : List Event) : Nat :=
  tr.countP fun e => match e with | .acquireSim _ => true | _ => false

/-- Number of simulator releases recorded in a trace. -/
def releaseCount (tr : List Event) : Nat :=
  tr.countP fun e => match e with | .releaseSim _ => true | _ => false

/-- `Endorser.disableJavaCCInst`: reject lscc install/deploy/upgrade
of a Java chaincode while Java support is disabled. -/
def disableJavaCCInst (env : Env) (cid : ChaincodeID)
    (cis : ChaincodeInvocationSpec) : Except String Unit :=
  if cid.Name ≠ "lscc" then .ok () else
  match cis.ChaincodeSpec with
  | none => .ok ()
  | some spec =>
    match spec.Input with
    | none => .ok ()
    | some input =>
      if input.Args.length < 1 then .ok () else
      let argNo : Option Nat :=
        if input.Args.getD 0 "" = "install" then some 1
        else if input.Args.getD 0 "" = "deploy" ∨ input.Args.getD 0 "" = "upgrade"
          then some 2
        else none
      match argNo with
      | none => .ok ()
      | some n =>
        if input.Args.length ≤ n then
          .error ("too few arguments passed. expected " ++ toString n)
        else
          match env.getCCPackageDepSpec (input.Args.getD n "") with
          | .error e => .error e
          | .ok cds =>
            if env.javaEnabled then .ok ()
            else if cds.ChaincodeSpec.ccType = ChaincodeType.JAVA then
              .error "Java chaincode is work-in-progress and disabled"
            else .ok ()

/-- `Endorser.callChaincode`: bind the simulator, decorate the input,
run the execution engine, classify the status, and perform the lscc
deploy/upgrade second execution under the same simulation context. -/
def callChaincode (env : Env) (chainID version txid : String)
    (signedProp : SignedProposal) (prop : Proposal)
    (cis : ChaincodeInvocationSpec) (cid : ChaincodeID) (txsim : Option Nat) :
    Except String (Response × Option ChaincodeEvent) × List Event :=
  match cis.ChaincodeSpec with
  | none => (.error "panic: nil ChaincodeSpec", [])
  | some spec =>
    match spec.Input with
    | none => (.error "panic: nil ChaincodeInput", [])
    | some input0 =>
      let scc := env.IsSysCC cid.Name
      let input := env.decorate prop { input0 with Decorations := [] }
      let cccid : CCContext :=
        { ChainID := chainID, Name := cid.Name, Version := version,
          TxID := txid, Syscc := scc, SignedProp := signedProp, PropMsg := prop,
          ProposalDecorations := input.Decorations }
      match env.executeChaincode txsim cccid input.Args with
      | .error e => (.error e, [Event.executeCC cid.Name])
      | .ok (res, ccevent) =>
        if ERRORTHRESHOLD ≤ res.Status then
          (.ok (res, none), [Event.executeCC cid.Name])
        else
          if cid.Name = "lscc" ∧ 3 ≤ input.Args.length ∧
              (input.Args.getD 0 "" = "deploy" ∨ input.Args.getD 0 "" = "upgrade") then
            match env.getChaincodeDeploymentSpec (input.Args.getD 2 "") with
            | .error e => (.error e, [Event.executeCC cid.Name])
            | .ok cds =>
              if env.IsSysCC cds.ChaincodeSpec.ChaincodeId.Name then
                (.error ("attempting to deploy a system chaincode " ++
                    cds.ChaincodeSpec.ChaincodeId.Name ++ "/" ++ chainID),
                  [Event.executeCC cid.Name])
              else
                let cccid2 : CCContext :=
                  { ChainID := chainID, Name := cds.ChaincodeSpec.ChaincodeId.Name,
                    Version := cds.ChaincodeSpec.ChaincodeId.Version,
                    TxID := txid, Syscc := false,
                    SignedProp := signedProp, PropMsg := prop }
                match env.execute txsim cccid2 cds with
                | .error e =>
                  (.error e,
                    [Event.executeCC cid.Name,
                     Event.executeDeploy cds.ChaincodeSpec.ChaincodeId.Name])
                | .ok _ =>
                  (.ok (res, ccevent),
                    [Event.executeCC cid.Name,
                     Event.executeDeploy cds.ChaincodeSpec.ChaincodeId.Name])
          else
            (.ok (res, ccevent), [Event.executeCC cid.Name])

/-- The definition/version resolution block of `simulateProposal`:
system chaincodes use the fixed platform version, ordinary chaincodes
are resolved through lscc (`getCDSFromLSCC`) and checked against the
recorded inst. policy. -/
def resolveCC (env : Env) (chainID txid : String)
    (signedProp : SignedProposal) (prop : Proposal) (cid : ChaincodeID)
    (txsim : Option Nat) :
    Except String (Option ChaincodeDefinition × String) :=
  if env.IsSysCC cid.Name then .ok (none, env.SysCCVersion)
  else
    match env.getChaincodeDefinition chainID txid signedProp prop cid.Name txsim with
    | .error e =>
      .error ("make sure the chaincode " ++ cid.Name ++
        " has been successfully instantiated and try again: " ++ e)
    | .ok cd =>
      match env.checkInstantiationPolicy cid.Name cd.CCVersion cd with
      | .error e => .error e
      | .ok _ => .ok (some cd, cd.CCVersion)

/-- `Endorser.simulateProposal`: extract the invocation spec, run the
Java pre-check, resolve the definition, execute via `callChaincode`,
then (when a simulator is bound) collect the simulation results,
distribute any private subset, and only then compute the public
simulation bytes. -/
def simulateProposal (env : Env) (chainID txid : String)
    (signedProp : SignedProposal) (prop : Proposal) (cid : ChaincodeID)
    (txsim : Option Nat) :
    Except String
        (Option ChaincodeDefinition × Response × Bytes × Option ChaincodeEvent)
      × List Event :=
  match env.getChaincodeInvocationSpec prop with
  | .error e => (.error e, [])
  | .ok cis =>
    match disableJavaCCInst env cid cis with
    | .error e => (.error e, [])
    | .ok _ =>
      match resolveCC env chainID txid signedProp prop cid txsim with
      | .error e => (.error e, [])
      | .ok (cdLedger, version) =>
        match callChaincode env chainID version txid signedProp prop cis cid txsim with
        | (.error e, tr) => (.error e, tr)
        | (.ok (res, ccevent), tr) =>
          match txsim with
          | none => (.ok (cdLedger, res, "", ccevent), tr)
          | some sim =>
            match env.getTxSimulationResults sim with
            | .error e => (.error e, tr)
            | .ok simResult =>
              match simResult.PvtSimulationResults with
              | some pvt =>
                match env.distributePrivateData chainID txid pvt with
                | .error e => (.error e, tr ++ [Event.distribute])
                | .ok _ =>
                  match env.getPubSimulationBytes simResult with
                  | .error e =>
                    (.error e, tr ++ [Event.distribute, Event.getPubBytes])
                  | .ok pub =>
                    (.ok (cdLedger, res, pub, ccevent),
                      tr ++ [Event.distribute, Event.getPubBytes])
              | none =>
                match env.getPubSimulationBytes simResult with
                | .error e => (.error e, tr ++ [Event.getPubBytes])
                | .ok pub =>
                  (.ok (cdLedger, res, pub, ccevent), tr ++ [Event.getPubBytes])

/-- Marshalling of an optional chaincode event
(`putils.GetBytesChaincodeEvent` guarded by the nil check, with the
"failed to marshal event bytes" wrap), as `endorseProposal` and
`ProcessProposal` both perform it. -/
def marshalEventBytes (env : Env) (event : Option ChaincodeEvent) :
    Except String Bytes :=
  match event with
  | none => .ok ""
  | some ev =>
    match env.getBytesChaincodeEvent ev with
    | .error e => .error ("failed to marshal event bytes: " ++ e)
    | .ok b => .ok b

/-- The invocation spec `endorseProposal` builds for the endorsement
system chaincode, with the standard eight arguments. -/
def esccCIS (escc : String) (proposal : Proposal)
    (ccidBytes resBytes simRes eventBytes visibility : Bytes) :
    ChaincodeInvocationSpec :=
  { ChaincodeSpec :=
      some { ccType := ChaincodeType.GOLANG,
             ChaincodeId := { Name := escc, Path := "", Version := "" },
             Input :=
               some { Args := ["", proposal.Header, proposal.Payload, ccidBytes,
                               resBytes, simRes, eventBytes, visibility],
                      Decorations := [] } } }

/-- `Endorser.endorseProposal`.  The second component of the result is
the final value of the caller-shared `ccid` record, whose `Version`
field the Go code mutates in place before invoking the endorsement
authority. -/
def endorseProposal (env : Env) (chainID txid : String)
    (signedProp : SignedProposal) (proposal : Proposal) (response : Response)
    (simRes : Bytes) (event : Option ChaincodeEvent) (visibility : Bytes)
    (ccid : ChaincodeID) (txsim : Option Nat)
    (cd : Option ChaincodeDefinition) :
    Except String ProposalResponse × ChaincodeID × List Event :=
  let esccE : Except String String :=
    match cd with
    | none => .ok "escc"
    | some c =>
      if c.Endorsement = "" then .error "panic: No ESCC specified in ChaincodeData"
      else .ok c.Endorsement
  match esccE with
  | .error e => (.error e, ccid, [Event.endorseEntry])
  | .ok escc =>
    match marshalEventBytes env event with
    | .error e => (.error e, ccid, [Event.endorseEntry])
    | .ok eventBytes =>
      match env.getBytesResponse response with
      | .error e =>
        (.error ("failed to marshal response bytes: " ++ e), ccid,
          [Event.endorseEntry])
      | .ok resBytes =>
        let ccid1 : ChaincodeID :=
          match cd with
          | none => { ccid with Version := env.SysCCVersion }
          | some c => { ccid with Version := c.CCVersion }
        match env.marshalChaincodeID ccid1 with
        | .error e =>
          (.error ("failed to marshal ChaincodeID: " ++ e), ccid1,
            [Event.endorseEntry])
        | .ok ccidBytes =>
          match callChaincode env chainID env.SysCCVersion txid signedProp
              proposal (esccCIS escc proposal ccidBytes resBytes simRes
                eventBytes visibility)
              { Name := escc, Path := "", Version := "" } txsim with
          | (.error e, tr) => (.error e, ccid1, Event.endorseEntry :: tr)
          | (.ok (res, _), tr) =>
            if ERRORTHRESHOLD ≤ res.Status then
              (.ok { Response := res }, ccid1, Event.endorseEntry :: tr)
            else
              match env.getProposalResponse res.Payload with
              | .error e => (.error e, ccid1, Event.endorseEntry :: tr)
              | .ok pResp => (.ok pResp, ccid1, Event.endorseEntry :: tr)

/-- The wrapping error of the typed `chaincodeError` Go value. -/
def ccError (res : Response) : GoError :=
  GoError.chaincodeError res.Status res.Message

/-- Lines 477-526 of `ProcessProposal` (simulate, classify, endorse,
set the response payload), factored out so that the deferred
simulator release can wrap it; `txsim` is `none` for chainless
proposals. -/
def processCore (env : Env) (chainID txid : String)
    (signedProp : SignedProposal) (prop : Proposal)
    (hdrExt : ChaincodeHeaderExtension) (txsim : Option Nat) :
    (Option ProposalResponse × Option GoError) × List Event :=
  match simulateProposal env chainID txid signedProp prop hdrExt.ChaincodeId txsim with
  | (.error e, tr) => ((some (respond500 e), some (.err e)), tr)
  | (.ok (cd, res, simulationResult, ccevent), tr) =>
    if ERROR ≤ res.Status then
      match marshalEventBytes env ccevent with
      | .error e => ((none, some (.err e)), tr)
      | .ok cceventBytes =>
        match env.createProposalResponseFailure prop.Header prop.Payload res
            simulationResult cceventBytes hdrExt.ChaincodeId
            hdrExt.PayloadVisibility with
        | .error e => ((some (respond500 e), some (.err e)), tr)
        | .ok pResp => ((some pResp, some (ccError res)), tr)
    else
      if chainID = "" then
        let pResp : ProposalResponse := { Response := res }
        ((some { pResp with
            Response := { pResp.Response with Payload := res.Payload } }, none), tr)
      else
        match endorseProposal env chainID txid signedProp prop res
            simulationResult ccevent hdrExt.PayloadVisibility
            hdrExt.ChaincodeId txsim cd with
        | (.error e, _, tr2) =>
          ((some (respond500 e), some (.err e)), tr ++ tr2)
        | (.ok pResp, _, tr2) =>
          if ERRORTHRESHOLD ≤ res.Status then
            ((some pResp, some (ccError res)), tr ++ tr2)
          else
            ((some { pResp with
                Response := { pResp.Response with Payload := res.Payload } },
              none), tr ++ tr2)

/-- `Endorser.ProcessProposal`: validate, admit, acquire the
simulator for chained proposals (with the deferred release exactly
where the Go code registers it), simulate, endorse, respond. -/
def ProcessProposal (env : Env) (signedProp : SignedProposal) :
    (Option ProposalResponse × Option GoError) × List Event :=
  match env.validateProposalMessage signedProp with
  | .error e => ((some (respond500 e), some (.err e)), [])
  | .ok (prop, hdr, hdrExt) =>
    match env.unmarshalChannelHeader hdr.ChannelHeader with
    | .error e => ((some (respond500 e), some (.err e)), [])
    | .ok chdr =>
      match env.getSignatureHeader hdr.SignatureHeader with
      | .error e => ((some (respond500 e), some (.err e)), [])
      | .ok shdr =>
        if env.IsSysCCAndNotInvokableExternal hdrExt.ChaincodeId.Name then
          let e := "chaincode " ++ hdrExt.ChaincodeId.Name ++
            " cannot be invoked through a proposal"
          ((some (respond500 e), some (.err e)), [])
        else
          let chainID := chdr.ChannelId
          let txid := chdr.TxId
          if txid = "" then
            let e := "invalid txID. It must be different from the empty string"
            ((some (respond500 e), some (.err e)), [])
          else
            if chainID = "" then
              processCore env chainID txid signedProp prop hdrExt none
            else
              match env.getLedger chainID with
              | none =>
                ((none, some (.err ("failed to look up the ledger for channel "
                    ++ chainID))), [])
              | some lgr =>
                match lgr.GetTransactionByID txid with
                | .ok _ =>
                  ((none, some (.err ("duplicate transaction found [" ++ txid ++
                      "]. Creator [" ++ shdr.Creator ++ "]"))),
                    [Event.dupCheck txid])
                | .error _ =>
                  let aclTrace : List Event :=
                    if env.IsSysCC hdrExt.ChaincodeId.Name then []
                    else [Event.aclCheck]
                  let aclResult : Except String Unit :=
                    if env.IsSysCC hdrExt.ChaincodeId.Name then .ok ()
                    else env.checkACL chainID signedProp
                  match aclResult with
                  | .error e =>
                    ((some (respond500 e), some (.err e)),
                      Event.dupCheck txid :: aclTrace)
                  | .ok _ =>
                    match lgr.NewTxSimulator txid with
                    | .error e =>
                      ((some (respond500 e), some (.err e)),
                        Event.dupCheck txid :: aclTrace)
                    | .ok sim =>
                      match lgr.NewHistoryQueryExecutor with
                      | .error e =>
                        -- the Go code registers `defer txsim.Done()` only
                        -- after this acquisition, so this path does not
                        -- release the simulator
                        ((some (respond500 e), some (.err e)),
                          Event.dupCheck txid :: aclTrace ++
                            [Event.acquireSim sim])
                      | .ok _ =>
                        let r := processCore env chainID txid signedProp prop
                          hdrExt (some sim)
                        (r.1,
                          Event.dupCheck txid :: aclTrace ++
                            [Event.acquireSim sim, Event.acquireHQE] ++
                            r.2 ++ [Event.releaseSim sim])

/-! Concrete fixtures used by witnesses and counterexamples. -/

/-- A deployment spec for an ordinary chaincode. -/
def newccDep : ChaincodeDeploymentSpec :=
  { ChaincodeSpec :=
    { ccType := ChaincodeType.GOLANG,
      ChaincodeId := { Name := "newcc", Path := "p", Version := "2.0" },
      Input := some { Args := [], Decorations := [] } } }

/-- A ledger on which every transaction lookup misses and the
simulator/history-query acquisitions succeed. -/
def okLedger : Ledger :=
  { GetTransactionByID := fun _ => .error "no such transaction",
    NewTxSimulator := fun _ => .ok 7,
    NewHistoryQueryExecutor := .ok () }

def baseProp : Proposal := { Header := "hdr", Payload := "pay", Extension := "ext" }

def baseHdr : Header := { ChannelHeader := "chb", SignatureHeader := "shb" }

def baseExt : ChaincodeHeaderExtension :=
  { ChaincodeId := { Name := "mycc", Path := "", Version := "" },
    PayloadVisibility := "vis" }

def baseSP : SignedProposal := { ProposalBytes := "pb", Signature := "sig" }

/-- An ordinary invocation spec for chaincode `mycc`. -/
def baseCIS : ChaincodeInvocationSpec :=
  { ChaincodeSpec :=
      some { ccType := ChaincodeType.GOLANG,
             ChaincodeId := { Name := "mycc", Path := "", Version := "" },
             Input := some { Args := ["invoke", "a", "b"], Decorations := [] } } }

/-- The proposal response the endorsement authority packs into its
payload in the concrete fixtures. -/
def endorsedPR (b : Bytes) : ProposalResponse :=
  { Version := 1,
    Response := { Status := 200, Message := "", Payload := b },
    Payload := "prpayload",
    Endorsement := some { Endorser := "peer0", Signature := "sig0" } }

/-- An environment in which every collaborator succeeds; the chaincode
returns status 200 with payload "result". -/
def baseEnv : Env :=
  { IsSysCC := fun n => n == "lscc" || n == "escc" || n == "vscc" || n == "cscc",
    IsSysCCAndNotInvokableExternal := fun n => n == "vscc",
    SysCCVersion := "latest",
    javaEnabled := false,
    validateProposalMessage := fun _ => .ok (baseProp, baseHdr, baseExt),
    unmarshalChannelHeader := fun _ => .ok { ChannelId := "ch1", TxId := "tx1" },
    getSignatureHeader := fun _ => .ok { Creator := "alice", Nonce := "n0" },
    checkACL := fun _ _ => .ok (),
    getLedger := fun _ => some okLedger,
    getChaincodeInvocationSpec := fun _ => .ok baseCIS,
    getCCPackageDepSpec := fun _ => .ok newccDep,
    getChaincodeDefinition := fun _ _ _ _ _ _ =>
      .ok { CCVersion := "1.0", Endorsement := "escc" },
    checkInstantiationPolicy := fun _ _ _ => .ok (),
    executeChaincode := fun _ _ _ =>
      .ok ({ Status := 200, Message := "OK", Payload := "result" }, none),
    execute := fun _ _ _ => .ok (),
    getChaincodeDeploymentSpec := fun _ => .ok newccDep,
    decorate := fun _ i => i,
    getTxSimulationResults := fun _ => .ok { PvtSimulationResults := none },
    getPubSimulationBytes := fun _ => .ok "pubsim",
    distributePrivateData := fun _ _ _ => .ok (),
    getBytesChaincodeEvent := fun _ => .ok "evbytes",
    getBytesResponse := fun _ => .ok "resbytes",
    marshalChaincodeID := fun c => .ok ("ccid/" ++ c.Name ++ "/" ++ c.Version),
    getProposalResponse := fun b => .ok (endorsedPR b),
    createProposalResponseFailure := fun _ _ r _ _ _ _ => .ok { Response := r } }

/-- A ledger on which the duplicate-transaction lookup hits. -/
def dupLedger : Ledger :=
  { okLedger with GetTransactionByID := fun _ => .ok () }

/-- Environment whose channel ledger already holds the transaction id. -/
def envDup : Env := { baseEnv with getLedger := fun _ => some dupLedger }

/-- A ledger whose history-query-executor acquisition fails. -/
def hqeFailLedger : Ledger :=
  { okLedger with
      NewHistoryQueryExecutor := Except.error "history query executor failure" }

/-- Environment in which the simulator is acquired but the
history-query-executor acquisition fails. -/
def envHqeFail : Env := { baseEnv with getLedger := fun _ => some hqeFailLedger }

/-- Environment whose channel header carries an empty channel id
(a chainless proposal). -/
def envChainless : Env :=
  { baseEnv with
      unmarshalChannelHeader := fun _ => Except.ok { ChannelId := "", TxId := "tx1" } }

/-- An lscc install invocation spec with three arguments. -/
def installCIS : ChaincodeInvocationSpec :=
  { ChaincodeSpec :=
      some { ccType := ChaincodeType.GOLANG,
             ChaincodeId := { Name := "lscc", Path := "", Version := "" },
             Input := some { Args := ["install", "x", "y"], Decorations := [] } } }

/-- An lscc deploy invocation spec with three arguments. -/
def deployCIS : ChaincodeInvocationSpec :=
  { ChaincodeSpec :=
      some { ccType := ChaincodeType.GOLANG,
             ChaincodeId := { Name := "lscc", Path := "", Version := "" },
             Input := some { Args := ["deploy", "x", "y"], Decorations := [] } } }

/-- The lscc chaincode id. -/
def lsccID : ChaincodeID := { Name := "lscc", Path := "", Version := "" }

/-- Environment in which extracting an embedded deployment spec and
running a second execution both fail. -/
def envLsccFail : Env :=
  { baseEnv with
      getChaincodeDeploymentSpec := fun _ => Except.error "bad deployment spec",
      execute := fun _ _ _ => Except.error "second execution failure" }

/-- An error-class (status 500) chaincode response. -/
def refusedRes : Response :=
  { Status := 500, Message := "endorse refused", Payload := "" }

/-- Environment whose chaincode executions return an error-class
(status 500) response. -/
def envExec500 : Env :=
  { baseEnv with
      executeChaincode := fun _ _ _ => Except.ok (refusedRes, none) }

/-- Environment whose simulation results carry a private subset. -/
def envPvt : Env :=
  { baseEnv with
      getTxSimulationResults := fun _ =>
        Except.ok { PvtSimulationResults := some "pvtdata" } }

/-! Helper lemmas about the effect traces. -/

/-- True for the events `simulateProposal` can emit. -/
def Event.isSimStep : Event → Bool
  | .executeCC _ => true
  | .executeDeploy _ => true
  | .distribute => true
  | .getPubBytes => true
  | _ => false

/-- Every event emitted by `callChaincode` is a chaincode execution. -/
theorem callChaincode_trace_exec (env : Env) (chainID version txid : String)
    (signedProp : SignedProposal) (prop : Proposal)
    (cis : ChaincodeInvocationSpec) (cid : ChaincodeID) (txsim : Option Nat)
    (r : Except String (Response × Option ChaincodeEvent)) (tr : List Event)
    (h : callChaincode env chainID version txid signedProp prop cis cid txsim
      = (r, tr)) :
    ∀ e ∈ tr, e.isExec = true := by
  unfold callChaincode at h
  dsimp only at h
  repeat' (split at h)
  all_goals injection h with h1 h2
  all_goals subst h2
  all_goals intro e he
  all_goals
    simp only [List.mem_cons, List.mem_singleton, List.not_mem_nil,
      or_false] at he
  all_goals
    first
      | exact he.elim
      | (subst he; rfl)
      | (rcases he with h | h <;> subst h <;> rfl)

/-- `callChaincode` only returns a non-nil chaincode event alongside a
response whose status is below the error threshold. -/
theorem callChaincode_ok_event (env : Env) (chainID version txid : String)
    (signedProp : SignedProposal) (prop : Proposal)
    (cis : ChaincodeInvocationSpec) (cid : ChaincodeID) (txsim : Option Nat)
    (res : Response) (ev : ChaincodeEvent) (tr : List Event)
    (h : callChaincode env chainID version txid signedProp prop cis cid txsim
      = (.ok (res, some ev), tr)) :
    res.Status < ERRORTHRESHOLD := by
  unfold callChaincode at h
  dsimp only at h
  repeat' (split at h)
  all_goals simp_all [ERRORTHRESHOLD]

/-- Chaincode-execution events are simulation steps. -/
theorem isExec_isSimStep (e : Event) (h : e.isExec = true) :
    e.isSimStep = true := by
  cases e <;> simp_all [Event.isExec, Event.isSimStep]

/-- Invariants of `simulateProposal`: its trace consists of simulation
steps only, and it only returns a non-nil chaincode event alongside a
response whose status is below the error threshold. -/
theorem simulateProposal_inv (env : Env) (chainID txid : String)
    (signedProp : SignedProposal) (prop : Proposal) (cid : ChaincodeID)
    (txsim : Option Nat)
    (r : Except String
        (Option ChaincodeDefinition × Response × Bytes × Option ChaincodeEvent))
    (tr : List Event)
    (h : simulateProposal env chainID txid signedProp prop cid txsim = (r, tr)) :
    (∀ e ∈ tr, e.isSimStep = true) ∧
    (∀ cd res sr ev, r = .ok (cd, res, sr, some ev) →
      res.Status < ERRORTHRESHOLD) := by
  unfold simulateProposal at h
  cases hcis : env.getChaincodeInvocationSpec prop with
  | error msg =>
    rw [hcis] at h
    try dsimp only at h
    injection h with h1 h2
    subst h1 h2
    refine ⟨fun e he => (List.not_mem_nil e he).elim, ?_⟩
    intro cd res sr ev hr
    exact absurd hr (by simp)
  | ok cis =>
    rw [hcis] at h
    try dsimp only at h
    cases hj : disableJavaCCInst env cid cis with
    | error msg =>
      rw [hj] at h
      try dsimp only at h
      injection h with h1 h2
      subst h1 h2
      refine ⟨fun e he => (List.not_mem_nil e he).elim, ?_⟩
      intro cd res sr ev hr
      exact absurd hr (by simp)
    | ok u =>
      rw [hj] at h
      try dsimp only at h
      cases hre : resolveCC env chainID txid signedProp prop cid txsim with
      | error msg =>
        rw [hre] at h
        try dsimp only at h
        injection h with h1 h2
        subst h1 h2
        refine ⟨fun e he => (List.not_mem_nil e he).elim, ?_⟩
        intro cd res sr ev hr
        exact absurd hr (by simp)
      | ok p =>
        rw [hre] at h
        try dsimp only at h
        obtain ⟨cdL, ver⟩ := p
        rcases hcc : callChaincode env chainID ver txid signedProp prop cis cid
          txsim with ⟨rc, trc⟩
        rw [hcc] at h
        try dsimp only at h
        have hexec := callChaincode_trace_exec env chainID ver txid signedProp
          prop cis cid txsim rc trc hcc
        have memStep : ∀ (suf : List Event), (∀ x ∈ suf, x.isSimStep = true) →
            ∀ e ∈ trc ++ suf, e.isSimStep = true := by
          intro suf hs e he
          rcases List.mem_append.mp he with h' | h'
          · exact isExec_isSimStep e (hexec e h')
          · exact hs e h'
        cases rc with
        | error msg =>
          injection h with h1 h2
          subst h1 h2
          refine ⟨fun e he => isExec_isSimStep e (hexec e he), ?_⟩
          intro cd res sr ev hr
          exact absurd hr (by simp)
        | ok resev =>
          obtain ⟨res, ccevent⟩ := resev
          try dsimp only at h
          have hstat : ∀ (ev : ChaincodeEvent), ccevent = some ev →
              res.Status < ERRORTHRESHOLD := by
            intro ev hev
            rw [hev] at hcc
            exact callChaincode_ok_event env chainID ver txid signedProp prop
              cis cid txsim res ev trc hcc
          have part2 : ∀ (pub : Bytes) (cd : Option ChaincodeDefinition)
              (res' : Response) (sr : Bytes) (ev : ChaincodeEvent),
              (Except.ok (cdL, res, pub, ccevent) :
                  Except String (Option ChaincodeDefinition × Response × Bytes
                    × Option ChaincodeEvent))
                = .ok (cd, res', sr, some ev) →
              res'.Status < ERRORTHRESHOLD := by
            intro pub cd res' sr ev hr
            simp only [Except.ok.injEq, Prod.mk.injEq] at hr
            obtain ⟨-, h2', -, h4'⟩ := hr
            exact h2' ▸ hstat ev h4'
          cases txsim with
          | none =>
            injection h with h1 h2
            subst h1 h2
            exact ⟨fun e he => isExec_isSimStep e (hexec e he),
              fun cd res' sr ev hr => part2 "" cd res' sr ev hr⟩
          | some sim =>
            try dsimp only at h
            cases hts : env.getTxSimulationResults sim with
            | error msg =>
              rw [hts] at h
              try dsimp only at h
              injection h with h1 h2
              subst h1 h2
              refine ⟨fun e he => isExec_isSimStep e (hexec e he), ?_⟩
              intro cd res' sr ev hr
              exact absurd hr (by simp)
            | ok simResult =>
              rw [hts] at h
              try dsimp only at h
              cases hpvt : simResult.PvtSimulationResults with
              | some pvt =>
                rw [hpvt] at h
                try dsimp only at h
                cases hdist : env.distributePrivateData chainID txid pvt with
                | error msg =>
                  rw [hdist] at h
                  try dsimp only at h
                  injection h with h1 h2
                  subst h1 h2
                  refine ⟨memStep [Event.distribute] ?_, ?_⟩
                  · intro x hx
                    simp only [List.mem_singleton] at hx
                    subst hx; rfl
                  · intro cd res' sr ev hr
                    exact absurd hr (by simp)
                | ok v =>
                  rw [hdist] at h
                  try dsimp only at h
                  cases hpub : env.getPubSimulationBytes simResult with
                  | error msg =>
                    rw [hpub] at h
                    try dsimp only at h
                    injection h with h1 h2
                    subst h1 h2
                    refine ⟨memStep [Event.distribute, Event.getPubBytes] ?_, ?_⟩
                    · intro x hx
                      rcases List.mem_cons.mp hx with h' | h'
                      · subst h'; rfl
                      · simp only [List.mem_singleton] at h'; subst h'; rfl
                    · intro cd res' sr ev hr
                      exact absurd hr (by simp)
                  | ok pub =>
                    rw [hpub] at h
                    try dsimp only at h
                    injection h with h1 h2
                    subst h1 h2
                    refine ⟨memStep [Event.distribute, Event.getPubBytes] ?_, ?_⟩
                    · intro x hx
                      rcases List.mem_cons.mp hx with h' | h'
                      · subst h'; rfl
                      · simp only [List.mem_singleton] at h'; subst h'; rfl
                    · intro cd res' sr ev hr
                      exact part2 pub cd res' sr ev hr
              | none =>
                rw [hpvt] at h
                try dsimp only at h
                cases hpub : env.getPubSimulationBytes simResult with
                | error msg =>
                  rw [hpub] at h
                  try dsimp only at h
                  injection h with h1 h2
                  subst h1 h2
                  refine ⟨memStep [Event.getPubBytes] ?_, ?_⟩
                  · intro x hx
                    simp only [List.mem_singleton] at hx
                    subst hx; rfl
                  · intro cd res' sr ev hr
                    exact absurd hr (by simp)
                | ok pub =>
                  rw [hpub] at h
                  try dsimp only at h
                  injection h with h1 h2
                  subst h1 h2
                  refine ⟨memStep [Event.getPubBytes] ?_, ?_⟩
                  · intro x hx
                    simp only [List.mem_singleton] at hx
                    subst hx; rfl
                  · intro cd res' sr ev hr
                    exact part2 pub cd res' sr ev hr

/-! Claim theorems. -/

/-- C6: for every signed proposal naming a reserved system chaincode
that is not externally invokable, `ProcessProposal` rejects it right
after header validation with a 500-status `ProposalResponse`, and
performs no duplicate-transaction check, no ACL check, and no
simulator acquisition (the trace is empty), whether or not the channel
id is empty. -/
theorem C6_not_invokable_rejected_early (env : Env) (sp : SignedProposal)
    (prop : Proposal) (hdr : Header) (hdrExt : ChaincodeHeaderExtension)
    (chdr : ChannelHeader) (shdr : SignatureHeader)
    (hv : env.validateProposalMessage sp = .ok (prop, hdr, hdrExt))
    (hch : env.unmarshalChannelHeader hdr.ChannelHeader = .ok chdr)
    (hsh : env.getSignatureHeader hdr.SignatureHeader = .ok shdr)
    (hni : env.IsSysCCAndNotInvokableExternal hdrExt.ChaincodeId.Name = true) :
    ProcessProposal env sp
      = ((some (respond500 ("chaincode " ++ hdrExt.ChaincodeId.Name ++
            " cannot be invoked through a proposal")),
          some (.err ("chaincode " ++ hdrExt.ChaincodeId.Name ++
            " cannot be invoked through a proposal"))), []) := by
  unfold ProcessProposal
  rw [hv]
  try dsimp only
  rw [hch]
  try dsimp only
  rw [hsh]
  try dsimp only
  rw [hni]
  simp

/-- Witness for C6 at a concrete environment in which the named
chaincode is reserved and not externally invokable. -/
theorem C6_witness :
    ProcessProposal
      { baseEnv with IsSysCCAndNotInvokableExternal := fun _ => true } baseSP
      = ((some (respond500 "chaincode mycc cannot be invoked through a proposal"),
          some (.err "chaincode mycc cannot be invoked through a proposal")), []) :=
  C6_not_invokable_rejected_early
    { baseEnv with IsSysCCAndNotInvokableExternal := fun _ => true }
    baseSP baseProp baseHdr baseExt { ChannelId := "ch1", TxId := "tx1" }
    { Creator := "alice", Nonce := "n0" } rfl rfl rfl rfl

/-- C7: if the execution engine returns without error and the returned
response's status is at or above the error threshold, `callChaincode`
returns that response with a nil chaincode event and a nil error, and
performs no further simulation step: in particular the lifecycle
second-execution special case is skipped (the trace holds the one
execution only). -/
theorem C7_error_class_stops (env : Env) (chainID version txid : String)
    (signedProp : SignedProposal) (prop : Proposal)
    (cis : ChaincodeInvocationSpec) (spec : ChaincodeSpec)
    (input0 : ChaincodeInput) (cid : ChaincodeID) (txsim : Option Nat)
    (res : Response) (ev0 : Option ChaincodeEvent)
    (hspec : cis.ChaincodeSpec = some spec)
    (hinput : spec.Input = some input0)
    (hexec : env.executeChaincode txsim
      { ChainID := chainID, Name := cid.Name, Version := version, TxID := txid,
        Syscc := env.IsSysCC cid.Name, SignedProp := signedProp, PropMsg := prop,
        ProposalDecorations :=
          (env.decorate prop { input0 with Decorations := [] }).Decorations }
      (env.decorate prop { input0 with Decorations := [] }).Args
      = .ok (res, ev0))
    (hst : ERRORTHRESHOLD ≤ res.Status) :
    callChaincode env chainID version txid signedProp prop cis cid txsim
      = (.ok (res, none), [Event.executeCC cid.Name]) := by
  unfold callChaincode
  rw [hspec]
  try dsimp only
  rw [hinput]
  try dsimp only
  rw [hexec]
  try dsimp only
  rw [if_pos hst]

/-- Witness for C7: an lscc deploy invocation whose first execution
returns status 500 is returned as-is, with no second execution. -/
theorem C7_witness :
    callChaincode envExec500 "ch1" "v1" "tx1" baseSP baseProp deployCIS lsccID
      (some 7)
      = (.ok (refusedRes, none), [Event.executeCC "lscc"]) :=
  C7_error_class_stops envExec500 "ch1" "v1" "tx1" baseSP baseProp deployCIS
    { ccType := ChaincodeType.GOLANG,
      ChaincodeId := { Name := "lscc", Path := "", Version := "" },
      Input := some { Args := ["deploy", "x", "y"], Decorations := [] } }
    { Args := ["deploy", "x", "y"], Decorations := [] }
    lsccID (some 7)
    refusedRes none
    rfl rfl rfl (by decide)

/-- C5: whenever the selected endorsement authority's own execution
returns a response whose status is at or above the error threshold —
for an ordinary contract (resolved definition, its declared authority)
and for a system contract (no definition, the default "escc"
authority) alike — `endorseProposal` returns a `ProposalResponse`
containing only that response (zero payload, no endorsement block)
together with a nil error: the failure is surfaced as a proposal-level
failure. -/
theorem C5_authority_error_bare_response (env : Env) (chainID txid : String)
    (signedProp : SignedProposal) (proposal : Proposal) (response : Response)
    (simRes : Bytes) (event : Option ChaincodeEvent) (visibility : Bytes)
    (ccid : ChaincodeID) (txsim : Option Nat) (cd : Option ChaincodeDefinition)
    (escc ver : String) (eventBytes resBytes ccidBytes : Bytes)
    (res : Response) (ev2 : Option ChaincodeEvent) (trc : List Event)
    (hescc : (match cd with
              | none => "escc"
              | some c => c.Endorsement) = escc)
    (hpanic : ∀ c, cd = some c → ¬c.Endorsement = "")
    (hver : (match cd with
             | none => env.SysCCVersion
             | some c => c.CCVersion) = ver)
    (heb : marshalEventBytes env event = .ok eventBytes)
    (hrb : env.getBytesResponse response = .ok resBytes)
    (hmc : env.marshalChaincodeID { ccid with Version := ver } = .ok ccidBytes)
    (hcall : callChaincode env chainID env.SysCCVersion txid signedProp proposal
      (esccCIS escc proposal ccidBytes resBytes simRes eventBytes visibility)
      { Name := escc, Path := "", Version := "" } txsim
      = (.ok (res, ev2), trc))
    (hst : ERRORTHRESHOLD ≤ res.Status) :
    endorseProposal env chainID txid signedProp proposal response simRes event
      visibility ccid txsim cd
      = (.ok { Response := res }, { ccid with Version := ver },
         Event.endorseEntry :: trc) := by
  cases cd with
  | none =>
    have hescc2 : "escc" = escc := hescc
    have hver2 : env.SysCCVersion = ver := hver
    subst hescc2 hver2
    unfold endorseProposal
    try dsimp only
    rw [heb]
    try dsimp only
    rw [hrb]
    try dsimp only
    rw [hmc]
    try dsimp only
    rw [hcall]
    try dsimp only
    rw [if_pos hst]
  | some c =>
    have hescc2 : c.Endorsement = escc := hescc
    have hver2 : c.CCVersion = ver := hver
    subst hescc2 hver2
    unfold endorseProposal
    try dsimp only
    rw [if_neg (hpanic c rfl)]
    try dsimp only
    rw [heb]
    try dsimp only
    rw [hrb]
    try dsimp only
    rw [hmc]
    try dsimp only
    rw [hcall]
    try dsimp only
    rw [if_pos hst]

/-- Witness for C5 on the system-contract path (`cd = none`, default
"escc" authority): the authority returning status 500 yields the bare
response with nil error. -/
theorem C5_witness :
    endorseProposal envExec500 "ch1" "tx1" baseSP baseProp
      { Status := 200, Message := "OK", Payload := "result" } "pubsim" none
      "vis" { Name := "cscc", Path := "", Version := "" } (some 7) none
      = (.ok { Response := refusedRes },
         { Name := "cscc", Path := "", Version := "latest" },
         [Event.endorseEntry, Event.executeCC "escc"]) :=
  C5_authority_error_bare_response envExec500 "ch1" "tx1" baseSP baseProp
    { Status := 200, Message := "OK", Payload := "result" } "pubsim" none "vis"
    { Name := "cscc", Path := "", Version := "" } (some 7) none
    "escc" "latest" "" "resbytes" "ccid/cscc/latest" refusedRes none
    [Event.executeCC "escc"]
    rfl (by intro c hc; cases hc) rfl rfl rfl rfl rfl (by decide)

/-- C10: `endorseProposal` overwrites `ccid.Version` in place before
invoking the endorsement authority — with the resolved definition's
version for ordinary contracts, with the fixed system-chaincode
version for system contracts — leaving every other field unchanged;
the mutated record is what the caller observes afterwards. -/
theorem C10_ccid_version_mutation (env : Env) (chainID txid : String)
    (signedProp : SignedProposal) (proposal : Proposal) (response : Response)
    (simRes : Bytes) (event : Option ChaincodeEvent) (visibility : Bytes)
    (ccid : ChaincodeID) (txsim : Option Nat) (cd : Option ChaincodeDefinition)
    (eventBytes resBytes : Bytes)
    (hpanic : ∀ c, cd = some c → ¬c.Endorsement = "")
    (heb : marshalEventBytes env event = .ok eventBytes)
    (hrb : env.getBytesResponse response = .ok resBytes) :
    (endorseProposal env chainID txid signedProp proposal response simRes event
      visibility ccid txsim cd).2.1
      = (match cd with
         | none => { ccid with Version := env.SysCCVersion }
         | some c => { ccid with Version := c.CCVersion }) := by
  cases cd with
  | none =>
    unfold endorseProposal
    try dsimp only
    rw [heb]
    try dsimp only
    rw [hrb]
    try dsimp only
    rcases hmc : env.marshalChaincodeID { ccid with Version := env.SysCCVersion }
      with msg | ccidBytes
    · rfl
    · dsimp only
      rcases hcall : callChaincode env chainID env.SysCCVersion txid signedProp
        proposal (esccCIS "escc" proposal ccidBytes resBytes simRes eventBytes
          visibility) { Name := "escc", Path := "", Version := "" } txsim
        with ⟨rc, trc⟩
      cases rc with
      | error msg => rfl
      | ok resev =>
        obtain ⟨res, ev2⟩ := resev
        try dsimp only
        by_cases hst : ERRORTHRESHOLD ≤ res.Status
        · rw [if_pos hst]
        · rw [if_neg hst]
          rcases hpr : env.getProposalResponse res.Payload with msg | pResp
          · rfl
          · rfl
  | some c =>
    unfold endorseProposal
    try dsimp only
    rw [if_neg (hpanic c rfl)]
    try dsimp only
    rw [heb]
    try dsimp only
    rw [hrb]
    try dsimp only
    rcases hmc : env.marshalChaincodeID { ccid with Version := c.CCVersion }
      with msg | ccidBytes
    · rfl
    · dsimp only
      rcases hcall : callChaincode env chainID env.SysCCVersion txid signedProp
        proposal (esccCIS c.Endorsement proposal ccidBytes resBytes simRes
          eventBytes visibility)
        { Name := c.Endorsement, Path := "", Version := "" } txsim
        with ⟨rc, trc⟩
      cases rc with
      | error msg => rfl
      | ok resev =>
        obtain ⟨res, ev2⟩ := resev
        try dsimp only
        by_cases hst : ERRORTHRESHOLD ≤ res.Status
        · rw [if_pos hst]
        · rw [if_neg hst]
          rcases hpr : env.getProposalResponse res.Payload with msg | pResp
          · rfl
          · rfl

/-- Witness for C10: with the concrete fixtures the caller's
chaincode id comes back with only its `Version` changed, to the
resolved definition's version. -/
theorem C10_witness :
    (endorseProposal baseEnv "ch1" "tx1" baseSP baseProp
      { Status := 200, Message := "OK", Payload := "result" } "pubsim" none
      "vis" { Name := "mycc", Path := "p0", Version := "v0" } (some 7)
      (some { CCVersion := "1.0", Endorsement := "escc" })).2.1
      = { Name := "mycc", Path := "p0", Version := "1.0" } :=
  C10_ccid_version_mutation baseEnv "ch1" "tx1" baseSP baseProp
    { Status := 200, Message := "OK", Payload := "result" } "pubsim" none "vis"
    { Name := "mycc", Path := "p0", Version := "v0" } (some 7)
    (some { CCVersion := "1.0", Endorsement := "escc" }) "" "resbytes"
    (by intro c hc; cases hc; decide) rfl rfl

/-- C1 counterexample: at this concrete input every precondition of
the claim holds — the proposal validates, the channel exists, and the
transaction id is already on the ledger — yet `ProcessProposal`
returns the bare `(nil, error)` pair, not a non-nil
`ProposalResponse` with status ≥ 500 as the claim requires; the trace
shows the duplicate lookup and nothing else. -/
theorem C1_counterexample :
    ProcessProposal envDup baseSP
      = ((none,
          some (.err "duplicate transaction found [tx1]. Creator [alice]")),
         [Event.dupCheck "tx1"]) := by
  rfl

/-- C1 amended: for every structurally valid proposal targeting an
existing channel whose transaction id is already present on that
channel's ledger, `ProcessProposal` fails with a
duplicate-transaction error and no chaincode execution occurs, but
the value returned is the bare `(nil, error)` pair — the same shape
as a channel-lookup failure — not a 500-status `ProposalResponse`. -/
theorem C1_duplicate_rejected (env : Env) (sp : SignedProposal)
    (prop : Proposal) (hdr : Header) (hdrExt : ChaincodeHeaderExtension)
    (chdr : ChannelHeader) (shdr : SignatureHeader) (lgr : Ledger)
    (hv : env.validateProposalMessage sp = .ok (prop, hdr, hdrExt))
    (hch : env.unmarshalChannelHeader hdr.ChannelHeader = .ok chdr)
    (hsh : env.getSignatureHeader hdr.SignatureHeader = .ok shdr)
    (hni : env.IsSysCCAndNotInvokableExternal hdrExt.ChaincodeId.Name = false)
    (htx : ¬chdr.TxId = "")
    (hcid : ¬chdr.ChannelId = "")
    (hlgr : env.getLedger chdr.ChannelId = some lgr)
    (hdup : lgr.GetTransactionByID chdr.TxId = .ok ()) :
    ProcessProposal env sp
      = ((none, some (.err ("duplicate transaction found [" ++ chdr.TxId ++
            "]. Creator [" ++ shdr.Creator ++ "]"))),
         [Event.dupCheck chdr.TxId])
    ∧ ∀ e ∈ (ProcessProposal env sp).2, e.isExec = false := by
  have hmain : ProcessProposal env sp
      = ((none, some (.err ("duplicate transaction found [" ++ chdr.TxId ++
            "]. Creator [" ++ shdr.Creator ++ "]"))),
         [Event.dupCheck chdr.TxId]) := by
    unfold ProcessProposal
    rw [hv]
    try dsimp only
    rw [hch]
    try dsimp only
    rw [hsh]
    try dsimp only
    rw [hni]
    rw [if_neg (by decide : ¬false = true)]
    try dsimp only
    rw [if_neg htx, if_neg hcid]
    rw [hlgr]
    try dsimp only
    rw [hdup]
  refine ⟨hmain, ?_⟩
  rw [hmain]
  intro e he
  simp only [List.mem_singleton] at he
  subst he
  rfl

/-- Witness for the amended C1 at the concrete duplicate-transaction
environment. -/
theorem C1_witness :
    ProcessProposal envDup baseSP
      = ((none,
          some (.err "duplicate transaction found [tx1]. Creator [alice]")),
         [Event.dupCheck "tx1"])
    ∧ ∀ e ∈ (ProcessProposal envDup baseSP).2, e.isExec = false :=
  C1_duplicate_rejected envDup baseSP baseProp baseHdr baseExt
    { ChannelId := "ch1", TxId := "tx1" } { Creator := "alice", Nonce := "n0" }
    dupLedger rfl rfl rfl rfl (by decide) (by decide) rfl rfl

/-- C2: the code violates the release-exactly-once claim.  At this
concrete input the proposal is admitted, the transaction simulator is
acquired, and then the history-query-executor acquisition fails; the
Go code registers `defer txsim.Done()` only after that acquisition, so
the request ends with one simulator acquisition and zero releases. -/
theorem C2_simulator_leak :
    ProcessProposal envHqeFail baseSP
      = ((some (respond500 "history query executor failure"),
          some (.err "history query executor failure")),
         [Event.dupCheck "tx1", Event.aclCheck, Event.acquireSim 7])
    ∧ acquireCount (ProcessProposal envHqeFail baseSP).2 = 1
    ∧ releaseCount (ProcessProposal envHqeFail baseSP).2 = 0 := by
  refine ⟨?_, ?_, ?_⟩ <;> rfl

/-- C3 counterexample: an lscc "install" operation with three
arguments whose first execution succeeds.  The claim says the embedded
deployment specification is extracted and a failure of extraction
aborts with `(nil, nil, error)`; in this environment extraction would
fail, yet `callChaincode` succeeds and performs no second execution —
the special case covers only "deploy" and "upgrade", not "install". -/
theorem C3_counterexample :
    callChaincode envLsccFail "ch1" "v1" "tx1" baseSP baseProp installCIS
      lsccID (some 7)
      = (.ok ({ Status := 200, Message := "OK", Payload := "result" }, none),
         [Event.executeCC "lscc"]) := by
  rfl

/-- C3 amended: in `callChaincode`, when the invoked contract is the
reserved lifecycle contract "lscc", the operation is deploy or upgrade
(not install) with at least 3 arguments, and the first execution
succeeds with status below the error threshold, the embedded
deployment specification is extracted and, if it does not target a
system contract, a second execution of the deployed contract is
performed under the same simulation context; deploying a system
contract is an error, and any failure of extraction or of the second
execution makes `callChaincode` return `(nil, nil, error)`. -/
theorem C3_lscc_deploy_second_execution (env : Env)
    (chainID version txid : String)
    (signedProp : SignedProposal) (prop : Proposal)
    (cis : ChaincodeInvocationSpec) (spec : ChaincodeSpec)
    (input0 input : ChaincodeInput) (cid : ChaincodeID) (txsim : Option Nat)
    (res : Response) (ev0 : Option ChaincodeEvent)
    (hspec : cis.ChaincodeSpec = some spec)
    (hinput : spec.Input = some input0)
    (hdec : env.decorate prop { input0 with Decorations := [] } = input)
    (hname : cid.Name = "lscc")
    (hlen : 3 ≤ input.Args.length)
    (hop : input.Args.getD 0 "" = "deploy" ∨ input.Args.getD 0 "" = "upgrade")
    (hexec : env.executeChaincode txsim
      { ChainID := chainID, Name := cid.Name, Version := version, TxID := txid,
        Syscc := env.IsSysCC cid.Name, SignedProp := signedProp, PropMsg := prop,
        ProposalDecorations := input.Decorations }
      input.Args = .ok (res, ev0))
    (hst : res.Status < ERRORTHRESHOLD) :
    (∀ msg, env.getChaincodeDeploymentSpec (input.Args.getD 2 "") = .error msg →
      callChaincode env chainID version txid signedProp prop cis cid txsim
        = (.error msg, [Event.executeCC cid.Name])) ∧
    (∀ cds, env.getChaincodeDeploymentSpec (input.Args.getD 2 "") = .ok cds →
      env.IsSysCC cds.ChaincodeSpec.ChaincodeId.Name = true →
      callChaincode env chainID version txid signedProp prop cis cid txsim
        = (.error ("attempting to deploy a system chaincode " ++
            cds.ChaincodeSpec.ChaincodeId.Name ++ "/" ++ chainID),
           [Event.executeCC cid.Name])) ∧
    (∀ cds msg, env.getChaincodeDeploymentSpec (input.Args.getD 2 "") = .ok cds →
      env.IsSysCC cds.ChaincodeSpec.ChaincodeId.Name = false →
      env.execute txsim
        { ChainID := chainID, Name := cds.ChaincodeSpec.ChaincodeId.Name,
          Version := cds.ChaincodeSpec.ChaincodeId.Version, TxID := txid,
          Syscc := false, SignedProp := signedProp, PropMsg := prop }
        cds = .error msg →
      callChaincode env chainID version txid signedProp prop cis cid txsim
        = (.error msg,
           [Event.executeCC cid.Name,
            Event.executeDeploy cds.ChaincodeSpec.ChaincodeId.Name])) ∧
    (∀ cds, env.getChaincodeDeploymentSpec (input.Args.getD 2 "") = .ok cds →
      env.IsSysCC cds.ChaincodeSpec.ChaincodeId.Name = false →
      env.execute txsim
        { ChainID := chainID, Name := cds.ChaincodeSpec.ChaincodeId.Name,
          Version := cds.ChaincodeSpec.ChaincodeId.Version, TxID := txid,
          Syscc := false, SignedProp := signedProp, PropMsg := prop }
        cds = .ok () →
      callChaincode env chainID version txid signedProp prop cis cid txsim
        = (.ok (res, ev0),
           [Event.executeCC cid.Name,
            Event.executeDeploy cds.ChaincodeSpec.ChaincodeId.Name])) := by
  have hbase : callChaincode env chainID version txid signedProp prop cis cid
      txsim
      = (match env.getChaincodeDeploymentSpec (input.Args.getD 2 "") with
         | .error e => (.error e, [Event.executeCC cid.Name])
         | .ok cds =>
           if env.IsSysCC cds.ChaincodeSpec.ChaincodeId.Name then
             (.error ("attempting to deploy a system chaincode " ++
                 cds.ChaincodeSpec.ChaincodeId.Name ++ "/" ++ chainID),
               [Event.executeCC cid.Name])
           else
             match env.execute txsim
                 { ChainID := chainID,
                   Name := cds.ChaincodeSpec.ChaincodeId.Name,
                   Version := cds.ChaincodeSpec.ChaincodeId.Version,
                   TxID := txid, Syscc := false, SignedProp := signedProp,
                   PropMsg := prop } cds with
             | .error e =>
               (.error e,
                 [Event.executeCC cid.Name,
                  Event.executeDeploy cds.ChaincodeSpec.ChaincodeId.Name])
             | .ok _ =>
               (.ok (res, ev0),
                 [Event.executeCC cid.Name,
                  Event.executeDeploy cds.ChaincodeSpec.ChaincodeId.Name])) := by
    unfold callChaincode
    rw [hspec]
    try dsimp only
    rw [hinput]
    try dsimp only
    rw [hdec, hexec]
    try dsimp only
    rw [if_neg (not_le.mpr hst), if_pos ⟨hname, hlen, hop⟩]
  refine ⟨?_, ?_, ?_, ?_⟩
  · intro msg hcds
    rw [hbase, hcds]
  · intro cds hcds hsys
    rw [hbase, hcds]
    try dsimp only
    rw [if_pos hsys]
  · intro cds msg hcds hsys hex
    rw [hbase, hcds]
    try dsimp only
    rw [if_neg (by rw [hsys]; exact (by decide : ¬false = true))]
    rw [hex]
  · intro cds hcds hsys hex
    rw [hbase, hcds]
    try dsimp only
    rw [if_neg (by rw [hsys]; exact (by decide : ¬false = true))]
    rw [hex]

/-- Witness for the amended C3: a concrete lscc deploy with a
non-system embedded deployment spec, exercising all four cases. -/
theorem C3_witness :
    (∀ msg, baseEnv.getChaincodeDeploymentSpec "y" = .error msg →
      callChaincode baseEnv "ch1" "v1" "tx1" baseSP baseProp deployCIS lsccID
        (some 7) = (.error msg, [Event.executeCC "lscc"])) ∧
    (∀ cds, baseEnv.getChaincodeDeploymentSpec "y" = .ok cds →
      baseEnv.IsSysCC cds.ChaincodeSpec.ChaincodeId.Name = true →
      callChaincode baseEnv "ch1" "v1" "tx1" baseSP baseProp deployCIS lsccID
        (some 7)
        = (.error ("attempting to deploy a system chaincode " ++
            cds.ChaincodeSpec.ChaincodeId.Name ++ "/" ++ "ch1"),
           [Event.executeCC "lscc"])) ∧
    (∀ cds msg, baseEnv.getChaincodeDeploymentSpec "y" = .ok cds →
      baseEnv.IsSysCC cds.ChaincodeSpec.ChaincodeId.Name = false →
      baseEnv.execute (some 7)
        { ChainID := "ch1", Name := cds.ChaincodeSpec.ChaincodeId.Name,
          Version := cds.ChaincodeSpec.ChaincodeId.Version, TxID := "tx1",
          Syscc := false, SignedProp := baseSP, PropMsg := baseProp }
        cds = .error msg →
      callChaincode baseEnv "ch1" "v1" "tx1" baseSP baseProp deployCIS lsccID
        (some 7)
        = (.error msg,
           [Event.executeCC "lscc",
            Event.executeDeploy cds.ChaincodeSpec.ChaincodeId.Name])) ∧
    (∀ cds, baseEnv.getChaincodeDeploymentSpec "y" = .ok cds →
      baseEnv.IsSysCC cds.ChaincodeSpec.ChaincodeId.Name = false →
      baseEnv.execute (some 7)
        { ChainID := "ch1", Name := cds.ChaincodeSpec.ChaincodeId.Name,
          Version := cds.ChaincodeSpec.ChaincodeId.Version, TxID := "tx1",
          Syscc := false, SignedProp := baseSP, PropMsg := baseProp }
        cds = .ok () →
      callChaincode baseEnv "ch1" "v1" "tx1" baseSP baseProp deployCIS lsccID
        (some 7)
        = (.ok ({ Status := 200, Message := "OK", Payload := "result" }, none),
           [Event.executeCC "lscc",
            Event.executeDeploy cds.ChaincodeSpec.ChaincodeId.Name])) :=
  C3_lscc_deploy_second_execution baseEnv "ch1" "v1" "tx1" baseSP baseProp
    deployCIS
    { ccType := ChaincodeType.GOLANG,
      ChaincodeId := { Name := "lscc", Path := "", Version := "" },
      Input := some { Args := ["deploy", "x", "y"], Decorations := [] } }
    { Args := ["deploy", "x", "y"], Decorations := [] }
    { Args := ["deploy", "x", "y"], Decorations := [] }
    lsccID (some 7)
    { Status := 200, Message := "OK", Payload := "result" } none
    rfl rfl rfl rfl (by decide) (Or.inl (by decide)) rfl (by decide)

/-- C4: in `simulateProposal`, when a simulator is bound and the
simulation results contain a non-nil private subset, the private-data
distributor runs strictly before the public simulation bytes are
computed (the trace up to that point holds neither a distribution nor
a public-bytes event), and a distributor error is returned as
`simulateProposal`'s own error, so the request never reaches
endorsement. -/
theorem C4_private_distribution (env : Env) (chainID txid : String)
    (signedProp : SignedProposal) (prop : Proposal) (cid : ChaincodeID)
    (sim : Nat) (cis : ChaincodeInvocationSpec)
    (cdL : Option ChaincodeDefinition) (ver : String)
    (res : Response) (ccevent : Option ChaincodeEvent) (trc : List Event)
    (simResult : TxSimulationResults) (pvt : Bytes)
    (hcis : env.getChaincodeInvocationSpec prop = .ok cis)
    (hjava : disableJavaCCInst env cid cis = .ok ())
    (hres : resolveCC env chainID txid signedProp prop cid (some sim)
      = .ok (cdL, ver))
    (hcc : callChaincode env chainID ver txid signedProp prop cis cid (some sim)
      = (.ok (res, ccevent), trc))
    (hts : env.getTxSimulationResults sim = .ok simResult)
    (hpvt : simResult.PvtSimulationResults = some pvt) :
    (Event.distribute ∉ trc ∧ Event.getPubBytes ∉ trc) ∧
    (∀ msg, env.distributePrivateData chainID txid pvt = .error msg →
      simulateProposal env chainID txid signedProp prop cid (some sim)
        = (.error msg, trc ++ [Event.distribute])) ∧
    (env.distributePrivateData chainID txid pvt = .ok () →
      ∃ rr, simulateProposal env chainID txid signedProp prop cid (some sim)
        = (rr, trc ++ [Event.distribute, Event.getPubBytes])) := by
  have hexec := callChaincode_trace_exec env chainID ver txid signedProp prop
    cis cid (some sim) (.ok (res, ccevent)) trc hcc
  have hpre : Event.distribute ∉ trc ∧ Event.getPubBytes ∉ trc := by
    constructor
    · intro hmem
      have := hexec _ hmem
      simp [Event.isExec] at this
    · intro hmem
      have := hexec _ hmem
      simp [Event.isExec] at this
  have hhead : ∀ (k : Except String Unit),
      env.distributePrivateData chainID txid pvt = k →
      simulateProposal env chainID txid signedProp prop cid (some sim)
        = (match k with
           | .error e => (.error e, trc ++ [Event.distribute])
           | .ok _ =>
             match env.getPubSimulationBytes simResult with
             | .error e =>
               (.error e, trc ++ [Event.distribute, Event.getPubBytes])
             | .ok pub =>
               (.ok (cdL, res, pub, ccevent),
                 trc ++ [Event.distribute, Event.getPubBytes])) := by
    intro k hk
    unfold simulateProposal
    rw [hcis]
    try dsimp only
    rw [hjava]
    try dsimp only
    rw [hres]
    try dsimp only
    rw [hcc]
    try dsimp only
    rw [hts]
    try dsimp only
    rw [hpvt]
    try dsimp only
    rw [hk]
  refine ⟨hpre, ?_, ?_⟩
  · intro msg hmsg
    exact hhead (.error msg) hmsg
  · intro hok
    have := hhead (.ok ()) hok
    rcases hpub : env.getPubSimulationBytes simResult with m | pub
    · rw [hpub] at this
      exact ⟨.error m, this⟩
    · rw [hpub] at this
      exact ⟨.ok (cdL, res, pub, ccevent), this⟩

/-- Witness for C4 at the concrete private-data environment. -/
theorem C4_witness :
    (Event.distribute ∉ [Event.executeCC "mycc"] ∧
     Event.getPubBytes ∉ [Event.executeCC "mycc"]) ∧
    (∀ msg, envPvt.distributePrivateData "ch1" "tx1" "pvtdata" = .error msg →
      simulateProposal envPvt "ch1" "tx1" baseSP baseProp
        { Name := "mycc", Path := "", Version := "" } (some 7)
        = (.error msg, [Event.executeCC "mycc"] ++ [Event.distribute])) ∧
    (envPvt.distributePrivateData "ch1" "tx1" "pvtdata" = .ok () →
      ∃ rr, simulateProposal envPvt "ch1" "tx1" baseSP baseProp
        { Name := "mycc", Path := "", Version := "" } (some 7)
        = (rr, [Event.executeCC "mycc"] ++
            [Event.distribute, Event.getPubBytes])) :=
  C4_private_distribution envPvt "ch1" "tx1" baseSP baseProp
    { Name := "mycc", Path := "", Version := "" } 7 baseCIS
    (some { CCVersion := "1.0", Endorsement := "escc" }) "1.0"
    { Status := 200, Message := "OK", Payload := "result" } none
    [Event.executeCC "mycc"] { PvtSimulationResults := some "pvtdata" }
    "pvtdata" rfl rfl rfl rfl rfl rfl

/-- Simulation-step events are none of the chained-only events. -/
theorem isSimStep_not_chainedOnly (e : Event) (h : e.isSimStep = true) :
    e.isChainedOnly = false := by
  cases e <;> simp_all [Event.isSimStep, Event.isChainedOnly]

/-- C8: a chainless proposal (empty channel id) that passes validation
performs no duplicate-transaction check, no ACL check, and acquires no
simulator (its trace has no such event, and no endorsement entry
either), yet still yields a non-nil `ProposalResponse`; on success the
response wraps the execution `Response` directly, without the
endorsement step. -/
theorem C8_chainless (env : Env) (sp : SignedProposal)
    (prop : Proposal) (hdr : Header) (hdrExt : ChaincodeHeaderExtension)
    (chdr : ChannelHeader) (shdr : SignatureHeader)
    (hv : env.validateProposalMessage sp = .ok (prop, hdr, hdrExt))
    (hch : env.unmarshalChannelHeader hdr.ChannelHeader = .ok chdr)
    (hsh : env.getSignatureHeader hdr.SignatureHeader = .ok shdr)
    (hni : env.IsSysCCAndNotInvokableExternal hdrExt.ChaincodeId.Name = false)
    (htx : ¬chdr.TxId = "")
    (hcid0 : chdr.ChannelId = "") :
    (∀ e ∈ (ProcessProposal env sp).2, e.isChainedOnly = false) ∧
    (ProcessProposal env sp).1.1.isSome = true ∧
    (∀ cd res sr ev tr,
      simulateProposal env "" chdr.TxId sp prop hdrExt.ChaincodeId none
        = (.ok (cd, res, sr, ev), tr) →
      res.Status < ERROR →
      ProcessProposal env sp = ((some { Response := res }, none), tr)) := by
  have hmain : ProcessProposal env sp
      = processCore env "" chdr.TxId sp prop hdrExt none := by
    unfold ProcessProposal
    rw [hv]
    try dsimp only
    rw [hch]
    try dsimp only
    rw [hsh]
    try dsimp only
    rw [hni]
    rw [if_neg (by decide : ¬false = true)]
    try dsimp only
    rw [if_neg htx]
    rw [hcid0]
    rw [if_pos rfl]
  rcases hsim : simulateProposal env "" chdr.TxId sp prop hdrExt.ChaincodeId
    none with ⟨rs, trs⟩
  have inv := simulateProposal_inv env "" chdr.TxId sp prop hdrExt.ChaincodeId
    none rs trs hsim
  have hcore : ∃ out : Option ProposalResponse × Option GoError,
      processCore env "" chdr.TxId sp prop hdrExt none = (out, trs) ∧
      out.1.isSome = true := by
    unfold processCore
    rw [hsim]
    cases rs with
    | error msg => exact ⟨_, rfl, rfl⟩
    | ok q =>
      obtain ⟨cd, res, sr, ev⟩ := q
      try dsimp only
      by_cases h5 : ERROR ≤ res.Status
      · rw [if_pos h5]
        cases ev with
        | some e2 =>
          exfalso
          have hlt := inv.2 cd res sr e2 rfl
          simp [ERROR] at h5
          simp [ERRORTHRESHOLD] at hlt
          omega
        | none =>
          simp only [marshalEventBytes]
          rcases hcp : env.createProposalResponseFailure prop.Header
            prop.Payload res sr "" hdrExt.ChaincodeId hdrExt.PayloadVisibility
            with m | pr
          · exact ⟨_, rfl, rfl⟩
          · exact ⟨_, rfl, rfl⟩
      · rw [if_neg h5]
        rw [if_pos rfl]
        exact ⟨_, rfl, rfl⟩
  obtain ⟨out, hout, hsome⟩ := hcore
  refine ⟨?_, ?_, ?_⟩
  · intro e he
    rw [hmain, hout] at he
    exact isSimStep_not_chainedOnly e (inv.1 e he)
  · rw [hmain, hout]
    exact hsome
  · intro cd res sr ev tr hs hlt
    rw [hmain]
    unfold processCore
    rw [hsim]
    injection hs with hs1 hs2
    subst hs1 hs2
    try dsimp only
    rw [if_neg (not_le.mpr hlt)]
    rw [if_pos rfl]

/-- Witness for C8 at the concrete chainless environment. -/
theorem C8_witness :
    (∀ e ∈ (ProcessProposal envChainless baseSP).2, e.isChainedOnly = false) ∧
    (ProcessProposal envChainless baseSP).1.1.isSome = true ∧
    (∀ cd res sr ev tr,
      simulateProposal envChainless "" "tx1" baseSP baseProp
        { Name := "mycc", Path := "", Version := "" } none
        = (.ok (cd, res, sr, ev), tr) →
      res.Status < ERROR →
      ProcessProposal envChainless baseSP
        = ((some { Response := res }, none), tr)) :=
  C8_chainless envChainless baseSP baseProp baseHdr baseExt
    { ChannelId := "", TxId := "tx1" } { Creator := "alice", Nonce := "n0" }
    rfl rfl rfl rfl (by decide) rfl

/-- C9: a successful invocation of an ordinary (non-system) contract
— admission passes, execution status is below the error threshold,
and endorsement succeeds with a success-class unpacked response —
makes `ProcessProposal` return a non-nil `ProposalResponse` whose
status is below the error threshold and whose `Response.Payload`
equals the execution response's payload bytes, together with a nil
error. -/
theorem C9_ordinary_success (env : Env) (sp : SignedProposal)
    (prop : Proposal) (hdr : Header) (hdrExt : ChaincodeHeaderExtension)
    (chdr : ChannelHeader) (shdr : SignatureHeader) (lgr : Ledger) (sim : Nat)
    (dmsg : String) (cd : Option ChaincodeDefinition) (res : Response)
    (sr : Bytes) (ccevent : Option ChaincodeEvent) (trs trE : List Event)
    (pResp : ProposalResponse) (ccidOut : ChaincodeID)
    (hv : env.validateProposalMessage sp = .ok (prop, hdr, hdrExt))
    (hch : env.unmarshalChannelHeader hdr.ChannelHeader = .ok chdr)
    (hsh : env.getSignatureHeader hdr.SignatureHeader = .ok shdr)
    (hni : env.IsSysCCAndNotInvokableExternal hdrExt.ChaincodeId.Name = false)
    (htx : ¬chdr.TxId = "")
    (hcid : ¬chdr.ChannelId = "")
    (hlgr : env.getLedger chdr.ChannelId = some lgr)
    (hdup : lgr.GetTransactionByID chdr.TxId = .error dmsg)
    (hsys : env.IsSysCC hdrExt.ChaincodeId.Name = false)
    (hacl : env.checkACL chdr.ChannelId sp = .ok ())
    (hsimacq : lgr.NewTxSimulator chdr.TxId = .ok sim)
    (hhqe : lgr.NewHistoryQueryExecutor = .ok ())
    (hsimp : simulateProposal env chdr.ChannelId chdr.TxId sp prop
      hdrExt.ChaincodeId (some sim) = (.ok (cd, res, sr, ccevent), trs))
    (hst : res.Status < ERRORTHRESHOLD)
    (hend : endorseProposal env chdr.ChannelId chdr.TxId sp prop res sr
      ccevent hdrExt.PayloadVisibility hdrExt.ChaincodeId (some sim) cd
      = (.ok pResp, ccidOut, trE))
    (hpr : pResp.Response.Status < ERRORTHRESHOLD) :
    ProcessProposal env sp
      = ((some { pResp with
            Response := { pResp.Response with Payload := res.Payload } },
          none),
         Event.dupCheck chdr.TxId :: [Event.aclCheck] ++
           [Event.acquireSim sim, Event.acquireHQE] ++ (trs ++ trE) ++
           [Event.releaseSim sim])
    ∧ ∃ pr, (ProcessProposal env sp).1.1 = some pr ∧
        pr.Response.Payload = res.Payload ∧
        pr.Response.Status < ERRORTHRESHOLD ∧
        (ProcessProposal env sp).1.2 = none := by
  have h5 : ¬ERROR ≤ res.Status :=
    not_le.mpr (lt_of_lt_of_le hst (by decide : ERRORTHRESHOLD ≤ ERROR))
  have hmain : ProcessProposal env sp
      = ((some { pResp with
            Response := { pResp.Response with Payload := res.Payload } },
          none),
         Event.dupCheck chdr.TxId :: [Event.aclCheck] ++
           [Event.acquireSim sim, Event.acquireHQE] ++ (trs ++ trE) ++
           [Event.releaseSim sim]) := by
    unfold ProcessProposal
    rw [hv]
    try dsimp only
    rw [hch]
    try dsimp only
    rw [hsh]
    try dsimp only
    rw [hni]
    rw [if_neg (by decide : ¬false = true)]
    try dsimp only
    rw [if_neg htx, if_neg hcid]
    rw [hlgr]
    try dsimp only
    rw [hdup]
    try dsimp only
    rw [hsys]
    rw [if_neg (by decide : ¬false = true)]
    rw [if_neg (by decide : ¬false = true)]
    rw [hacl]
    try dsimp only
    rw [hsimacq]
    try dsimp only
    rw [hhqe]
    try dsimp only
    unfold processCore
    rw [hsimp]
    try dsimp only
    rw [if_neg h5, if_neg hcid]
    rw [hend]
    try dsimp only
    rw [if_neg (not_le.mpr hst)]
  refine ⟨hmain, ?_⟩
  rw [hmain]
  exact ⟨_, rfl, rfl, hpr, rfl⟩

/-- Witness for C9: the fully successful concrete pipeline run. -/
theorem C9_witness :
    ProcessProposal baseEnv baseSP
      = ((some { endorsedPR "result" with
            Response := { (endorsedPR "result").Response with
              Payload := "result" } },
          none),
         Event.dupCheck "tx1" :: [Event.aclCheck] ++
           [Event.acquireSim 7, Event.acquireHQE] ++
           ([Event.executeCC "mycc", Event.getPubBytes] ++
             [Event.endorseEntry, Event.executeCC "escc"]) ++
           [Event.releaseSim 7])
    ∧ ∃ pr, (ProcessProposal baseEnv baseSP).1.1 = some pr ∧
        pr.Response.Payload = "result" ∧
        pr.Response.Status < ERRORTHRESHOLD ∧
        (ProcessProposal baseEnv baseSP).1.2 = none :=
  C9_ordinary_success baseEnv baseSP baseProp baseHdr baseExt
    { ChannelId := "ch1", TxId := "tx1" } { Creator := "alice", Nonce := "n0" }
    okLedger 7 "no such transaction"
    (some { CCVersion := "1.0", Endorsement := "escc" })
    { Status := 200, Message := "OK", Payload := "result" } "pubsim" none
    [Event.executeCC "mycc", Event.getPubBytes]
    [Event.endorseEntry, Event.executeCC "escc"]
    (endorsedPR "result") { Name := "mycc", Path := "", Version := "1.0" }
    rfl rfl rfl rfl (by decide) (by decide) rfl rfl rfl rfl rfl rfl rfl
    (by decide) rfl (by decide)

end Fabric
